import Mathlib

set_option maxRecDepth 16384

/- Shallow embedding of `src/wiki_generator.py` and the batch-export path of
`src/cli.py` from the Oman events Wikipedia generator.  The remote OpenAI
completion endpoint is modelled as an oracle (`Client`) that may consult the
list of calls made so far (its opaque server-side state) and either returns
generated text or fails; every place the Python code invokes
`self.client.chat.completions.create` the embedding records the issued
`CompletionRequest` in an explicit call log.  Python exceptions are modelled
with `Except`; Python dicts (insertion-ordered, last write wins) are modelled
as association lists built by `dictInsert`. -/
namespace WikiGen

/-- Python exception values raised by the generator: `ValueError msg` or a
plain `Exception msg`; `str e` yields the message either way. -/
inductive PyErr where
  | valueError (msg : String)
  | exception (msg : String)
deriving Repr, DecidableEq

/-- Python `str(e)` on an exception value. -/
def PyErr.str : PyErr → String
  | .valueError m => m
  | .exception m => m

/-- One call to `client.chat.completions.create`: the system message, the user
prompt, and the two sampling parameters the code passes (`temperature`,
`max_tokens`).  The float literals of the source are represented exactly as
rationals. -/
structure CompletionRequest where
  systemMsg : String
  userMsg : String
  temperature : ℚ
  max_tokens : Nat
deriving Repr, DecidableEq

/-- The remote completion service: from the calls made so far (its opaque
state evolves with them) and a request, produce generated text or fail. -/
abbrev Client : Type := List CompletionRequest → CompletionRequest → Except String String

/-- A client whose answers do not depend on the call history. -/
def pureClient (f : CompletionRequest → Except String String) : Client :=
  fun _ req => f req

/-- ASCII model of Python whitespace (also the regex class `\s`). -/
def pyWhitespace (c : Char) : Bool :=
  c == ' ' || c == '\t' || c == '\n' || c == '\r' || c == '\x0b' || c == '\x0c'

/-- Python `str.strip()`: whitespace removed from both ends (a structurally
recursive model of `String.trim`, so that closed terms evaluate). -/
def pyStrip (s : String) : String :=
  String.mk (((s.toList.dropWhile pyWhitespace).reverse.dropWhile pyWhitespace).reverse)

/-- The class attribute `SUPPORTED_LANGUAGES = {"en": "English", "ar": "Arabic"}`. -/
def SUPPORTED_LANGUAGES : List (String × String) :=
  [("en", "English"), ("ar", "Arabic")]

/-- Python `language in self.SUPPORTED_LANGUAGES` (dict key membership). -/
def langSupported (language : String) : Bool :=
  SUPPORTED_LANGUAGES.any (fun p => decide (p.1 = language))

/-- The `ValueError` message of `generate_wiki_article` (line 58):
`f"Unsupported language: {language}. Supported: {list(self.SUPPORTED_LANGUAGES.keys())}"`. -/
def unsupportedMsgLong (language : String) : String :=
  "Unsupported language: " ++ language ++ ". Supported: [\x27en\x27, \x27ar\x27]"

/-- The `ValueError` message of `generate_summary` / `generate_infobox`
(lines 150 and 190): `f"Unsupported language: {language}"`. -/
def unsupportedMsgShort (language : String) : String :=
  "Unsupported language: " ++ language

/-- Method `_get_system_prompt` (lines 83-87). -/
def get_system_prompt (language : String) : String :=
  if language == "ar" then
    "أنت كاتب مقالات ويكيبيديا خبير متخصص في التاريخ والثقافة والأحداث العمانية. اكتب مقالات شاملة ومنظمة وواقعية."
  else
    "You are an expert Wikipedia article writer specializing in Omani history, culture, and events. Write comprehensive, well-structured, and factual articles."

/-- Method `_build_prompt` (lines 89-133); `\x27` is the ASCII apostrophe the
f-strings put around the event name.  Python `if context:` is false both for
`None` and for the empty string. -/
def build_prompt (event_name : String) (context : Option String)
    (style language : String) : String :=
  let base :=
    if language == "ar" then
      "اكتب مقالة شاملة على نمط ويكيبيديا عن \x27" ++ event_name ++
      "\x27 في عمان.\n\nيجب أن تتضمن المقالة:\n1. فقرة تمهيدية بتعريف واضح\n2. الخلفية التاريخية والأهمية\n3. التفاصيل والمعلومات الرئيسية\n4. التأثير الثقافي أو الاقتصادي\n5. المشاركون أو الشخصيات البارزة (إن وجد)\n6. الأحداث أو التقاليد ذات الصلة\n7. قسم المراجع\n\nالأسلوب: " ++
      style ++ "\n"
    else
      "Write a comprehensive Wikipedia-style article about \x27" ++ event_name ++
      "\x27 in Oman.\n\nThe article should include:\n1. An introductory paragraph with a clear definition\n2. Historical background and significance\n3. Key details and information\n4. Cultural or economic impact\n5. Notable participants or figures (if applicable)\n6. Related events or traditions\n7. References section\n\nStyle: " ++
      style ++ "\n"
  let base :=
    match context with
    | some ctx =>
      if ctx == "" then base
      else if language == "ar" then base ++ "\nسياق إضافي: " ++ ctx
      else base ++ "\nAdditional context: " ++ ctx
    | none => base
  if language == "ar" then
    base ++ "\n\nاكتب المقالة بتنسيق ويكيبيديا المناسب مع الأقسام والأقسام الفرعية."
  else
    base ++ "\n\nWrite the article in proper Wikipedia format with appropriate sections and subsections."

/-- The completion request built by `generate_wiki_article` (lines 65-76):
system prompt by language, the article prompt, `temperature=0.7`,
`max_tokens=2000`. -/
def articleRequest (event_name : String) (context : Option String)
    (style language : String) : CompletionRequest :=
  ⟨get_system_prompt language, build_prompt event_name context style language,
    0.7, 2000⟩

/-- Method `generate_wiki_article` (lines 38-81).  Returns the result together
with the call log extended by the requests issued during the call. -/
def generate_wiki_article (client : Client) (hist : List CompletionRequest)
    (event_name : String) (context : Option String)
    (style language : String) :
    Except PyErr String × List CompletionRequest :=
  if langSupported language then
    let req := articleRequest event_name context style language
    match client hist req with
    | Except.ok text => (Except.ok (pyStrip text), hist ++ [req])
    | Except.error e =>
        (Except.error (PyErr.exception ("Error generating content: " ++ e)),
          hist ++ [req])
  else
    (Except.error (PyErr.valueError (unsupportedMsgLong language)), hist)

/-- The prompt of `generate_summary` (lines 152-157); both variants end the
first line with a trailing space before the newline, as in the source. -/
def summary_prompt (event_name : String) (max_length : Int)
    (language : String) : String :=
  if language == "ar" then
    "اكتب ملخصاً موجزاً (بحد أقصى " ++ toString max_length ++
    " كلمة) عن \x27" ++ event_name ++ "\x27 في عمان. \nركز على أهم الحقائق والأهمية."
  else
    "Write a concise summary (max " ++ toString max_length ++
    " words) about \x27" ++ event_name ++ "\x27 in Oman. \nFocus on the most important facts and significance."

/-- The completion request of `generate_summary` (lines 160-171):
`temperature=0.5`, `max_tokens=300`. -/
def summaryRequest (event_name : String) (max_length : Int)
    (language : String) : CompletionRequest :=
  ⟨get_system_prompt language, summary_prompt event_name max_length language,
    0.5, 300⟩

/-- Method `generate_summary` (lines 135-176). -/
def generate_summary (client : Client) (hist : List CompletionRequest)
    (event_name : String) (max_length : Int) (language : String) :
    Except PyErr String × List CompletionRequest :=
  if langSupported language then
    let req := summaryRequest event_name max_length language
    match client hist req with
    | Except.ok text => (Except.ok (pyStrip text), hist ++ [req])
    | Except.error e =>
        (Except.error (PyErr.exception ("Error generating summary: " ++ e)),
          hist ++ [req])
  else
    (Except.error (PyErr.valueError (unsupportedMsgShort language)), hist)

/-- The prompt of `generate_infobox` (lines 192-213). -/
def infobox_prompt (event_name : String) (language : String) : String :=
  if language == "ar" then
    "أنشئ صندوق معلومات على نمط ويكيبيديا لـ \x27" ++ event_name ++
    "\x27 في عمان.\nيجب أن يتضمن الحقول ذات الصلة مثل:\n- التاريخ/الفترة الزمنية\n- الموقع\n- نوع الحدث\n- الأهمية\n- المشاركون\n- تفاصيل أخرى ذات صلة\n\nقم بتنسيقه كصندوق معلومات نصي."
  else
    "Create a Wikipedia-style infobox for \x27" ++ event_name ++
    "\x27 in Oman.\nInclude relevant fields such as:\n- Date/Time period\n- Location\n- Type of event\n- Significance\n- Participants\n- Other relevant details\n\nFormat it as a text-based infobox."

/-- The completion request of `generate_infobox` (lines 216-227):
`temperature=0.6`, `max_tokens=500`. -/
def infoboxRequest (event_name : String) (language : String) :
    CompletionRequest :=
  ⟨get_system_prompt language, infobox_prompt event_name language, 0.6, 500⟩

/-- Method `generate_infobox` (lines 178-232). -/
def generate_infobox (client : Client) (hist : List CompletionRequest)
    (event_name : String) (language : String) :
    Except PyErr String × List CompletionRequest :=
  if langSupported language then
    let req := infoboxRequest event_name language
    match client hist req with
    | Except.ok text => (Except.ok (pyStrip text), hist ++ [req])
    | Except.error e =>
        (Except.error (PyErr.exception ("Error generating infobox: " ++ e)),
          hist ++ [req])
  else
    (Except.error (PyErr.valueError (unsupportedMsgShort language)), hist)

/-- Python dict insertion `d[k] = v` on an insertion-ordered association
list: if the key is present its value is updated in place, otherwise the
pair is appended at the end. -/
def dictInsert {β : Type} (d : List (String × β)) (k : String) (v : β) :
    List (String × β) :=
  if d.any (fun p => decide (p.1 = k)) then
    d.map (fun p => if p.1 = k then (p.1, v) else p)
  else d ++ [(k, v)]

/-- Python dict lookup `d[k]` (first entry with the key; entries built by
`dictInsert` have unique keys). -/
def dictLookup {β : Type} : List (String × β) → String → Option β
  | [], _ => none
  | p :: rest, k => if p.1 = k then some p.2 else dictLookup rest k

/-- Keys of an association list, in order. -/
def keyList {β : Type} (d : List (String × β)) : List String :=
  d.map Prod.fst

/-- The try-block body of one `batch_generate` iteration (lines 256-264):
dispatch on `output_type`; with no extra kwargs the article call uses
`context=None, style="formal"` and the summary call uses `max_length=200`;
an unknown output type raises `ValueError`. -/
def runOne (client : Client) (hist : List CompletionRequest)
    (output_type language event_name : String) :
    Except PyErr String × List CompletionRequest :=
  if output_type = "article" then
    generate_wiki_article client hist event_name none ("formal") language
  else if output_type = "summary" then
    generate_summary client hist event_name 200 language
  else if output_type = "infobox" then
    generate_infobox client hist event_name language
  else
    (Except.error (PyErr.valueError ("Unknown output type: " ++ output_type)),
      hist)

/-- The except-clause of `batch_generate` (lines 266-268): a success stores
the content, any exception stores `f"Error: {str(e)}"`. -/
def mkEntry : Except PyErr String → String
  | Except.ok content => content
  | Except.error e => "Error: " ++ e.str

/-- The loop of `batch_generate` (lines 255-268). -/
def batch_go (client : Client) (output_type language : String) :
    List String → List (String × String) → List CompletionRequest →
    List (String × String) × List CompletionRequest
  | [], results, hist => (results, hist)
  | name :: rest, results, hist =>
    let step := runOne client hist output_type language name
    batch_go client output_type language rest
      (dictInsert results name (mkEntry step.1)) step.2

/-- Method `batch_generate` (lines 234-270), called without extra kwargs. -/
def batch_generate (client : Client) (hist : List CompletionRequest)
    (event_names : List String) (output_type language : String) :
    List (String × String) × List CompletionRequest :=
  batch_go client output_type language event_names [] hist

/-- The image-description prompt of `generate_with_image` (lines 341-344). -/
def image_prompt (event_name : String) (language : String) : String :=
  if language == "ar" then
    "قم بإنشاء وصف مفصل لصورة تمثل \x27" ++ event_name ++
    "\x27 في عمان. يجب أن يكون الوصف مناسباً لتوليد الصور باستخدام DALL-E."
  else
    "Create a detailed image prompt for \x27" ++ event_name ++
    "\x27 in Oman that would be suitable for DALL-E image generation. Focus on visual elements, setting, atmosphere, and cultural details."

/-- The completion request of the image step (lines 347-358):
`temperature=0.7`, `max_tokens=200`. -/
def imageRequest (language : String) (event_name : String) :
    CompletionRequest :=
  ⟨"You are an expert at creating detailed image prompts for AI image generation.",
    image_prompt event_name language, 0.7, 200⟩

/-- Method `generate_with_image` (lines 320-371): the article is generated
first (failures there propagate); then the image-prompt call runs inside a
try-block whose except-clause still returns the article together with an
inline error string under `image_prompt`. -/
def generate_with_image (client : Client) (hist : List CompletionRequest)
    (event_name : String) (context : Option String) (language : String) :
    Except PyErr (List (String × String)) × List CompletionRequest :=
  match generate_wiki_article client hist event_name context ("formal") language with
  | (Except.error e, hist2) => (Except.error e, hist2)
  | (Except.ok article, hist2) =>
    let req := imageRequest language event_name
    match client hist2 req with
    | Except.ok text =>
        (Except.ok [("article", article), ("image_prompt", pyStrip text)],
          hist2 ++ [req])
    | Except.error e =>
        (Except.ok [("article", article),
          ("image_prompt", "Error generating image prompt: " ++ e)],
          hist2 ++ [req])

/- The citation extractor (`extract_citations`, lines 272-294) applies two
Python regexes.  The embedding below implements the exact backtracking
semantics of those two patterns by direct character scanning; it was traced
against CPython's `re` on the section-search pattern
`(?:References|المراجع)\s*\n(.*?)(?:\n\n|\Z)` (DOTALL, IGNORECASE) and the
item pattern `(?:^|\n)\s*(?:\d+\.|\-|\*)\s*(.+?)(?=\n\s*(?:\d+\.|\-|\*)|$)`
(DOTALL, no MULTILINE).  `\s` is modelled over ASCII whitespace. -/

/-- Lower-cased characters of the literal alternative `References`. -/
def refsHeaderEn : List Char := ("references").toList

/-- Characters of the literal alternative `المراجع`. -/
def refsHeaderAr : List Char := ("المراجع").toList

/-- Match one of the two header literals at the current position
(IGNORECASE; Arabic letters have no case). -/
def matchHeaderAt (cs : List Char) : Option (List Char) :=
  if (cs.take refsHeaderEn.length).map Char.toLower = refsHeaderEn then
    some (cs.drop refsHeaderEn.length)
  else if cs.take refsHeaderAr.length = refsHeaderAr then
    some (cs.drop refsHeaderAr.length)
  else none

/-- Index of the last newline inside a character run. -/
def lastNewlineIdx (run : List Char) : Option Nat :=
  (run.reverse.findIdx? (fun c => c == '\n')).map (fun i => run.length - 1 - i)

/-- Greedy `\s*\n` after the header: the whitespace run must contain a
newline, and `\s*` backtracks to consume through the last newline of the
run, so the captured body starts right after that newline. -/
def afterHeaderBody (cs : List Char) : Option (List Char) :=
  match lastNewlineIdx (cs.takeWhile pyWhitespace) with
  | none => none
  | some p => some (cs.drop (p + 1))

/-- Lazy `(.*?)(?:\n\n|\Z)` with DOTALL: the shortest prefix ending at a
blank line, or everything when no blank line follows. -/
def takeUntilBlank : List Char → List Char
  | [] => []
  | '\n' :: '\n' :: _ => []
  | c :: rest => c :: takeUntilBlank rest

/-- Leftmost search of the section pattern: at each position try a header
literal followed by `\s*\n`; on success the group-1 capture is the body up
to the first blank line. -/
def findRefsSection : List Char → Option (List Char)
  | [] => none
  | cs@(_ :: rest) =>
    match matchHeaderAt cs >>= afterHeaderBody with
    | some body => some (takeUntilBlank body)
    | none => findRefsSection rest

/-- Length of a match of the list-marker alternation `\d+\.|\-|\*` at the
current position (the digits branch needs a maximal digit run followed by a
dot; backtracking inside `\d+` cannot succeed otherwise). -/
def markerLen (cs : List Char) : Option Nat :=
  let ds := cs.takeWhile Char.isDigit
  if ds.length > 0 then
    match cs.drop ds.length with
    | '.' :: _ => some (ds.length + 1)
    | _ => none
  else
    match cs with
    | '-' :: _ => some 1
    | '*' :: _ => some 1
    | _ => none

/-- Whether `\s*` followed by a list marker matches here (used inside the
lookahead; a marker starts with a non-whitespace character, so `\s*` must
consume the whole whitespace run). -/
def markerAfterWs (cs : List Char) : Bool :=
  (markerLen (cs.dropWhile pyWhitespace)).isSome

/-- The lookahead `(?=\n\s*(?:\d+\.|\-|\*)|$)` without MULTILINE: a newline
leading to another marker, or end of text, or the position just before a
final newline. -/
def lookaheadHolds : List Char → Bool
  | [] => true
  | '\n' :: rest => markerAfterWs rest || rest.isEmpty
  | _ => false

/-- Lazy `(.+?)` against the lookahead, after its first mandatory
character has been consumed into `acc`. -/
def lazyCaptureGo (acc : List Char) : List Char → List Char × List Char
  | [] => (acc.reverse, [])
  | c :: rest2 =>
    if lookaheadHolds (c :: rest2) then (acc.reverse, c :: rest2)
    else lazyCaptureGo (c :: acc) rest2

/-- Lazy `(.+?)`: consume one mandatory character, then stop at the first
position where the lookahead holds (end of text always qualifies). -/
def lazyCapture : List Char → Option (List Char × List Char)
  | [] => none
  | c :: rest => some (lazyCaptureGo [c] rest)

/-- One attempt of the item pattern after its `(?:^|\n)` anchor: `\s*`, a
marker, `\s*`, then the lazy capture.  When the text after the marker is
whitespace to the end, the greedy second `\s*` backtracks one character so
the capture can take it (it is then stripped away by the caller). -/
def tryEntry (cs : List Char) : Option (List Char × List Char) :=
  let wsLen := (cs.takeWhile pyWhitespace).length
  match markerLen (cs.drop wsLen) with
  | none => none
  | some ml =>
    let afterMarker := cs.drop (wsLen + ml)
    let e := (afterMarker.takeWhile pyWhitespace).length
    match lazyCapture (afterMarker.drop e) with
    | some r => some r
    | none =>
      match afterMarker.drop (e - 1) with
      | [c] => some ([c], [])
      | _ => none

/-- The `re.findall` scan of the item pattern: fuelled left-to-right search
for non-overlapping matches; at position 0 the `^` alternative of the anchor
applies, elsewhere a literal newline is consumed.  Each match consumes at
least one character, so fuel `length + 1` never runs out. -/
def scanEntriesGo : Nat → List Char → Bool → List (List Char)
  | 0, _, _ => []
  | fuel + 1, cs, atStart =>
    let attempt :=
      match (if atStart then tryEntry cs else none) with
      | some r => some r
      | none =>
        match cs with
        | '\n' :: rest => tryEntry rest
        | _ => none
    match attempt with
    | some (cap, rest) => cap :: scanEntriesGo fuel rest false
    | none =>
      match cs with
      | [] => []
      | _ :: rest => scanEntriesGo fuel rest false

/-- All group-1 captures of the item pattern over the section body. -/
def scanEntries (cs : List Char) : List (List Char) :=
  scanEntriesGo (cs.length + 1) cs true

/-- Method `extract_citations` (lines 272-294): locate the references
section, split it on list markers, strip each piece and drop empty ones. -/
def extract_citations (article : String) : List String :=
  match findRefsSection article.toList with
  | none => []
  | some refsText =>
    ((scanEntries refsText).map (fun cs => pyStrip (String.mk cs))).filter
      (fun s => s != "")

/-- ASCII model of the regex word class `\w` used by `\b`. -/
def pyWordChar (c : Char) : Bool :=
  c.isAlphanum || c == '_'

/-- Whether `\d{4}\b` matches at the head of the list (four digits followed
by a non-word character or the end). -/
def fourDigitsAt : List Char → Bool
  | a :: b :: c :: d :: rest =>
    a.isDigit && b.isDigit && c.isDigit && d.isDigit &&
      (match rest with
       | [] => true
       | e :: _ => !(pyWordChar e))
  | _ => false

/-- Search loop for `\b\d{4}\b`: a boundary before the digits means the
previous character (if any) is not a word character. -/
def hasYearGo : Bool → List Char → Bool
  | _, [] => false
  | prevIsWord, c :: rest =>
    (!prevIsWord && fourDigitsAt ((c : Char) :: rest)) ||
      hasYearGo (pyWordChar c) rest

/-- Python `bool(re.search(r"\b\d{4}\b", citation))` (line 311). -/
def hasYear (citation : String) : Bool :=
  hasYearGo false citation.toList

/-- Prefix test over character lists. -/
def listStarts : List Char → List Char → Bool
  | [], _ => true
  | _ :: _, [] => false
  | a :: as, b :: bs => a == b && listStarts as bs

/-- Python `str.endswith` (a structurally recursive model of
`String.endsWith`, so that closed terms evaluate). -/
def pyEndsWith (s p : String) : Bool :=
  listStarts p.toList.reverse s.toList.reverse

/-- The per-citation body of `validate_citations` (lines 308-316); the
source also computes `has_quotes`, which does not feed `is_valid`.  Both
`endswith` arguments on line 312 are the same ASCII period. -/
def citationValid (citation : String) : Bool :=
  let has_quotes := citation.toList.any (fun c => c == '"')
    || citation.toList.any (fun c => c == '\x27')
  let has_year := hasYear citation
  let has_punctuation := pyEndsWith citation (".") || pyEndsWith citation (".")
  let is_substantial := decide (citation.length > 20)
  let _ := has_quotes
  has_year && is_substantial && has_punctuation

/-- Method `validate_citations` (lines 296-318): a dict mapping each
citation to its validity flag. -/
def validate_citations (citations : List String) : List (String × Bool) :=
  citations.foldl (fun acc c => dictInsert acc c (citationValid c)) []

/- The batch-export path of the `batch` CLI command (`src/cli.py`,
lines 396-405) and its filename sanitisation. -/

/-- ASCII model of Python `str.isalnum`. -/
def py_isalnum (c : Char) : Bool := c.isAlphanum

/-- Characters kept by the sanitisation filter on cli.py line 401:
alphanumerics, space, hyphen, underscore. -/
def keepChar (c : Char) : Bool :=
  py_isalnum c || c == ' ' || c == '-' || c == '_'

/-- Python `str.rstrip()` (trailing whitespace removed). -/
def pyRstrip (l : List Char) : List Char :=
  (l.reverse.dropWhile pyWhitespace).reverse

/-- The filename derivation of cli.py lines 401-402: keep only
alphanumerics, space, hyphen and underscore, strip trailing whitespace,
then `.replace(" ", "_")`, which on a single-character pattern substitutes
every space. -/
def safe_name (event_name : String) : String :=
  String.mk ((pyRstrip (event_name.toList.filter keepChar)).map
    (fun c => if c == ' ' then '_' else c))

/-- The filename derivation exactly as the claim words it (no trailing
strip): keep the allowed characters, then turn each space into an
underscore.  This definition follows the specification text and exists only
to be compared with `safe_name`. -/
def claimedSafeName (event_name : String) : String :=
  String.mk ((event_name.toList.filter keepChar).map
    (fun c => if c == ' ' then '_' else c))

/-- The path written for one entry: `output_path / f"{safe_name}.txt"`. -/
def mkPath (output_dir : String) (event_name : String) : String :=
  output_dir ++ ("/") ++ safe_name event_name ++ (".txt")

/-- Modelled from the spec: the file-writing step of batch export.  The
repository's `src/exporters.py` (the `BatchExporter.export_batch` that
returns subject-to-path mappings) is absent from the sources; only the
text-format loop of cli.py lines 396-405 is present, and it writes
`output_path / f"{safe_name}.txt"` per entry.  Per the spec the operation
writes one file per subject into the directory and returns the realized
paths; the file system is modelled as a path-to-contents dict, writing
creates or overwrites. -/
def batch_export (results : List (String × String)) (output_dir : String)
    (fs : List (String × String)) :
    List (String × String) × List (String × String) :=
  (results.map (fun e => (e.1, mkPath output_dir e.1)),
    results.foldl (fun acc e => dictInsert acc (mkPath output_dir e.1) e.2) fs)

/-- The insertion-order key list of `batch_generate` on an empty starting
dict, matching Python dict construction over the input order. -/
def firstOccurrences (names : List String) : List String :=
  names.foldl
    (fun acc n => if acc.any (fun m => decide (m = n)) then acc else acc ++ [n])
    []

/-- A client that always succeeds with the empty string. -/
def okClient : Client := pureClient (fun _ => Except.ok (""))

/-- A pure client configured to fail exactly on the article prompt for
subject S2 in English with no context and formal style. -/
def failS2 : CompletionRequest → Except String String := fun req =>
  if req.userMsg = (articleRequest ("S2") none ("formal") ("en")).userMsg then
    Except.error ("boom")
  else Except.ok ("generated")

/-- A client that fails exactly on the image prompt for subject E. -/
def imgFailClient : Client := fun _ req =>
  if req.userMsg = (imageRequest ("en") ("E")).userMsg then
    Except.error ("img down")
  else Except.ok ("the article")

/-- A history-sensitive client: its answer depends on how many calls were
made before, so repeated subjects can receive different content. -/
def countingClient : Client := fun hist _ =>
  Except.ok (if hist.length = 0 then ("first") else ("second"))

/-- Sample article whose References section holds three numbered entries. -/
def sampleRefsArticle : String :=
  "Intro paragraph.\n\nReferences\n1. Alpha Press, 2019. First source.\n2. Beta Journal, 2020. Second source.\n3. Gamma Books, 2021. Third source.\n\nTrailing text."

/-- Sample article with no References section. -/
def noRefsArticle : String := "No refs here at all."

/- Association-list lemmas for the Python-dict model. -/

lemma dictLookup_map_update_ne {β : Type} (k' k : String) (v : β) (hk : k' ≠ k) :
    ∀ d : List (String × β),
      dictLookup (d.map (fun p => if p.1 = k' then (p.1, v) else p)) k
        = dictLookup d k := by
  intro d
  induction d with
  | nil => rfl
  | cons p rest ih =>
    by_cases h1 : p.1 = k'
    · simp [dictLookup, h1, hk, ih]
    · by_cases h2 : p.1 = k
      · simp [dictLookup, h1, h2, Ne.symm hk]
      · simp [dictLookup, h1, h2, ih]

lemma dictLookup_map_update_self {β : Type} (k : String) (v : β) :
    ∀ d : List (String × β), d.any (fun p => decide (p.1 = k)) = true →
      dictLookup (d.map (fun p => if p.1 = k then (p.1, v) else p)) k
        = some v := by
  intro d
  induction d with
  | nil => simp
  | cons p rest ih =>
    intro h
    by_cases h1 : p.1 = k
    · simp [dictLookup, h1]
    · have h2 : rest.any (fun p => decide (p.1 = k)) = true := by
        simpa [List.any_cons, h1] using h
      simp [dictLookup, h1, ih h2]

lemma dictLookup_append_single {β : Type} (k' k : String) (v : β) :
    ∀ d : List (String × β),
      dictLookup (d ++ [(k', v)]) k
        = match dictLookup d k with
          | some x => some x
          | none => if k' = k then some v else none := by
  intro d
  induction d with
  | nil => rfl
  | cons p rest ih =>
    by_cases h1 : p.1 = k
    · simp [dictLookup, h1]
    · simp [dictLookup, h1, ih]

lemma dictLookup_none_of_forall {β : Type} (k : String) :
    ∀ d : List (String × β), (∀ p ∈ d, p.1 ≠ k) →
      dictLookup d k = none := by
  intro d
  induction d with
  | nil => intro _; rfl
  | cons p rest ih =>
    intro h
    have h1 : p.1 ≠ k := h p (List.mem_cons_self p rest)
    have h2 : ∀ q ∈ rest, q.1 ≠ k := fun q hq => h q (List.mem_cons_of_mem p hq)
    simp [dictLookup, h1, ih h2]

/-- Lookup after a Python-dict insertion: the inserted key reads the new
value, every other key is untouched. -/
lemma dictLookup_dictInsert {β : Type} (d : List (String × β))
    (k' k : String) (v : β) :
    dictLookup (dictInsert d k' v) k
      = if k' = k then some v else dictLookup d k := by
  unfold dictInsert
  by_cases hany : d.any (fun p => decide (p.1 = k')) = true
  · rw [if_pos hany]
    by_cases hk : k' = k
    · subst hk
      rw [dictLookup_map_update_self k' v d hany]
      simp
    · rw [dictLookup_map_update_ne k' k v hk d]
      simp [hk]
  · rw [if_neg hany]
    rw [dictLookup_append_single]
    have hall : ∀ p ∈ d, p.1 ≠ k' := by
      intro p hp hpk
      exact hany (List.any_eq_true.mpr ⟨p, hp, by simpa using hpk⟩)
    by_cases hk : k' = k
    · subst hk
      rw [dictLookup_none_of_forall k' d hall]
    · cases hmem : dictLookup d k with
      | none => simp [hk]
      | some x => simp [hk]

/-- Insertion preserves the key order and appends an absent key at the end. -/
lemma keyList_dictInsert {β : Type} (d : List (String × β)) (k : String) (v : β) :
    keyList (dictInsert d k v)
      = if d.any (fun p => decide (p.1 = k)) then keyList d
        else keyList d ++ [k] := by
  unfold dictInsert keyList
  by_cases h : d.any (fun p => decide (p.1 = k)) = true
  · rw [if_pos h, if_pos h, List.map_map]
    congr 1
    funext p
    by_cases hp : p.1 = k <;> simp [hp]
  · rw [if_neg h, if_neg h]
    simp

/-- Key membership of an association list through its key list. -/
lemma any_keyList {β : Type} (d : List (String × β)) (n : String) :
    (keyList d).any (fun m => decide (m = n))
      = d.any (fun p => decide (p.1 = n)) := by
  unfold keyList
  induction d with
  | nil => rfl
  | cons p rest ih => simp [List.any_cons, ih]

/- Loop invariants of `batch_generate`. -/

/-- Processing a concatenation processes the prefix first. -/
lemma batch_go_append (client : Client) (ot lang : String)
    (pre suf : List String) :
    ∀ results hist,
      batch_go client ot lang (pre ++ suf) results hist
        = batch_go client ot lang suf
            (batch_go client ot lang pre results hist).1
            (batch_go client ot lang pre results hist).2 := by
  induction pre with
  | nil => intro results hist; rfl
  | cons n rest ih =>
    intro results hist
    simp only [List.cons_append, batch_go]
    exact ih _ _

/-- Subjects not in the remaining input keep their current entry. -/
lemma batch_go_lookup_of_not_mem (client : Client) (ot lang s : String) :
    ∀ (names : List String) results hist, s ∉ names →
      dictLookup (batch_go client ot lang names results hist).1 s
        = dictLookup results s := by
  intro names
  induction names with
  | nil => intro results hist _; rfl
  | cons n rest ih =>
    intro results hist h
    have hne : n ≠ s := fun hq => h (hq ▸ List.mem_cons_self n rest)
    have hrest : s ∉ rest := fun hq => h (List.mem_cons_of_mem n hq)
    simp only [batch_go]
    rw [ih _ _ hrest, dictLookup_dictInsert]
    simp [hne]

/-- The keys of the accumulated dict grow by first occurrence of each
subject, in input order. -/
lemma batch_go_keys (client : Client) (ot lang : String) :
    ∀ (names : List String) results hist,
      keyList (batch_go client ot lang names results hist).1
        = names.foldl
            (fun acc n =>
              if acc.any (fun m => decide (m = n)) then acc else acc ++ [n])
            (keyList results) := by
  intro names
  induction names with
  | nil => intro results hist; rfl
  | cons n rest ih =>
    intro results hist
    simp only [batch_go, List.foldl_cons]
    rw [ih]
    congr 1
    rw [keyList_dictInsert, any_keyList]

/- History insensitivity of the single-item operations under a pure client. -/

lemma generate_wiki_article_fst_pure (f : CompletionRequest → Except String String)
    (hist : List CompletionRequest) (e : String) (ctx : Option String)
    (st lang : String) :
    (generate_wiki_article (pureClient f) hist e ctx st lang).1
      = (generate_wiki_article (pureClient f) [] e ctx st lang).1 := by
  simp only [generate_wiki_article, pureClient]
  by_cases h : langSupported lang = true
  · simp only [if_pos h]
    cases f (articleRequest e ctx st lang) <;> rfl
  · simp only [if_neg h]

lemma generate_summary_fst_pure (f : CompletionRequest → Except String String)
    (hist : List CompletionRequest) (e : String) (ml : Int) (lang : String) :
    (generate_summary (pureClient f) hist e ml lang).1
      = (generate_summary (pureClient f) [] e ml lang).1 := by
  simp only [generate_summary, pureClient]
  by_cases h : langSupported lang = true
  · simp only [if_pos h]
    cases f (summaryRequest e ml lang) <;> rfl
  · simp only [if_neg h]

lemma generate_infobox_fst_pure (f : CompletionRequest → Except String String)
    (hist : List CompletionRequest) (e lang : String) :
    (generate_infobox (pureClient f) hist e lang).1
      = (generate_infobox (pureClient f) [] e lang).1 := by
  simp only [generate_infobox, pureClient]
  by_cases h : langSupported lang = true
  · simp only [if_pos h]
    cases f (infoboxRequest e lang) <;> rfl
  · simp only [if_neg h]

/-- A history-insensitive client gives every occurrence of a subject the
same single-item result regardless of the call log. -/
lemma runOne_fst_pure (f : CompletionRequest → Except String String)
    (hist : List CompletionRequest) (ot lang n : String) :
    (runOne (pureClient f) hist ot lang n).1
      = (runOne (pureClient f) [] ot lang n).1 := by
  unfold runOne
  by_cases h1 : ot = "article"
  · simp only [if_pos h1]
    exact generate_wiki_article_fst_pure f hist n none ("formal") lang
  · simp only [if_neg h1]
    by_cases h2 : ot = "summary"
    · simp only [if_pos h2]
      exact generate_summary_fst_pure f hist n 200 lang
    · simp only [if_neg h2]
      by_cases h3 : ot = "infobox"
      · simp only [if_pos h3]
        exact generate_infobox_fst_pure f hist n lang
      · simp only [if_neg h3]

/-- Every member of a list has a last occurrence. -/
lemma exists_last_occurrence (s : String) (l : List String) (h : s ∈ l) :
    ∃ pre suf, l = pre ++ s :: suf ∧ s ∉ suf := by
  induction l with
  | nil => cases h
  | cons a rest ih =>
    by_cases hs : s ∈ rest
    · obtain ⟨pre, suf, heq, hns⟩ := ih hs
      exact ⟨a :: pre, suf, by rw [heq]; rfl, hns⟩
    · have hsa : s = a := by
        rcases List.mem_cons.mp h with h1 | h2
        · exact h1
        · exact absurd h2 hs
      exact ⟨[], rest, by simp [hsa], hs⟩

/- Claim theorems. -/

/-- Claim C1: `batch_generate` iterates the subjects, invoking the
single-item operation selected by `output_type` for each; a subject whose
operation fails is mapped to a synthesized `Error: ...` string rather than
raising, subjects whose operations succeed are mapped to the generated
content, and every input subject receives an entry — the batch never aborts
early.  Stated over a history-insensitive client, under which each
occurrence's single-item result equals that of a fresh call. -/
theorem batch_generate_tolerates_item_failure
    (f : CompletionRequest → Except String String)
    (names : List String) (output_type language s : String) (h : s ∈ names) :
    dictLookup (batch_generate (pureClient f) [] names output_type language).1 s
      = some (mkEntry (runOne (pureClient f) [] output_type language s).1) := by
  obtain ⟨pre, suf, heq, hns⟩ := exists_last_occurrence s names h
  subst heq
  unfold batch_generate
  rw [batch_go_append]
  simp only [batch_go]
  rw [batch_go_lookup_of_not_mem (pureClient f) output_type language s suf _ _ hns,
    dictLookup_dictInsert]
  simp [runOne_fst_pure]

/-- Witness for C1: the spec scenario — a client failing only on S2 leaves
content for S1 and S3 and an error string for S2, and the batch completes. -/
theorem batch_generate_tolerates_item_failure_witness :
    dictLookup (batch_generate (pureClient failS2) []
        [("S1"), ("S2"), ("S3")] ("article") ("en")).1 ("S1")
      = some ("generated")
    ∧ dictLookup (batch_generate (pureClient failS2) []
        [("S1"), ("S2"), ("S3")] ("article") ("en")).1 ("S2")
      = some ("Error: Error generating content: boom")
    ∧ dictLookup (batch_generate (pureClient failS2) []
        [("S1"), ("S2"), ("S3")] ("article") ("en")).1 ("S3")
      = some ("generated") :=
  ⟨(batch_generate_tolerates_item_failure failS2 [("S1"), ("S2"), ("S3")]
      ("article") ("en") ("S1") (by decide)).trans (by decide),
   (batch_generate_tolerates_item_failure failS2 [("S1"), ("S2"), ("S3")]
      ("article") ("en") ("S2") (by decide)).trans (by decide),
   (batch_generate_tolerates_item_failure failS2 [("S1"), ("S2"), ("S3")]
      ("article") ("en") ("S3") (by decide)).trans (by decide)⟩

/-- Claim C2: for every language code outside the supported set en/ar, each
single-item operation fails with a ValueError and the call log is unchanged:
zero calls reach the completion client. -/
theorem unsupported_language_fails_before_call (client : Client)
    (hist : List CompletionRequest) (event_name : String)
    (context : Option String) (style : String) (max_length : Int)
    (language : String) (h : language ∉ (["en", "ar"] : List String)) :
    generate_wiki_article client hist event_name context style language
      = (Except.error (PyErr.valueError (unsupportedMsgLong language)), hist)
    ∧ generate_summary client hist event_name max_length language
      = (Except.error (PyErr.valueError (unsupportedMsgShort language)), hist)
    ∧ generate_infobox client hist event_name language
      = (Except.error (PyErr.valueError (unsupportedMsgShort language)), hist) := by
  have h1 : language ≠ "en" := fun hq => h (by simp [hq])
  have h2 : language ≠ "ar" := fun hq => h (by simp [hq])
  have hl : langSupported language = false := by
    simp [langSupported, SUPPORTED_LANGUAGES, Ne.symm h1, Ne.symm h2]
  refine ⟨?_, ?_, ?_⟩ <;>
    simp [generate_wiki_article, generate_summary, generate_infobox, hl]

/-- Witness for C2: the unsupported language fr is rejected by all three
operations with no completion call recorded. -/
theorem unsupported_language_fails_before_call_witness :
    (("fr") ∉ (["en", "ar"] : List String))
    ∧ generate_wiki_article okClient [] ("E") none ("formal") ("fr")
      = (Except.error (PyErr.valueError (unsupportedMsgLong ("fr"))), [])
    ∧ generate_summary okClient [] ("E") 200 ("fr")
      = (Except.error (PyErr.valueError (unsupportedMsgShort ("fr"))), [])
    ∧ generate_infobox okClient [] ("E") ("fr")
      = (Except.error (PyErr.valueError (unsupportedMsgShort ("fr"))), []) := by
  have h := unsupported_language_fails_before_call okClient [] ("E") none
    ("formal") 200 ("fr") (by decide)
  exact ⟨by decide, h.1, h.2.1, h.2.2⟩

/-- Claim C3: `generate_with_image` generates the article first; if the
image-description step fails, the operation still returns a mapping holding
the article under `article` and an inline error string under `image_prompt`
— the secondary failure never discards the primary artifact. -/
theorem generate_with_image_keeps_article (client : Client)
    (hist : List CompletionRequest) (event_name : String)
    (context : Option String) (language : String) (a : String)
    (hist2 : List CompletionRequest) (m : String)
    (h1 : generate_wiki_article client hist event_name context ("formal") language
            = (Except.ok a, hist2))
    (h2 : client hist2 (imageRequest language event_name) = Except.error m) :
    generate_with_image client hist event_name context language
      = (Except.ok [(("article"), a),
          (("image_prompt"), ("Error generating image prompt: ") ++ m)],
        hist2 ++ [imageRequest language event_name]) := by
  simp [generate_with_image, h1, h2]

/-- Witness for C3: a client that fails only on the image request still
returns the article together with the inline error string. -/
theorem generate_with_image_keeps_article_witness :
    generate_with_image imgFailClient [] ("E") none ("en")
      = (Except.ok [(("article"), ("the article")),
          (("image_prompt"), ("Error generating image prompt: img down"))],
        [articleRequest ("E") none ("formal") ("en"),
          imageRequest ("en") ("E")]) := by
  have h := generate_with_image_keeps_article imgFailClient [] ("E") none ("en")
    ("the article") [articleRequest ("E") none ("formal") ("en")] ("img down")
    (by rfl) (by rfl)
  exact h.trans (by rfl)

/-- Claim C4 fails on the code: no single-item operation validates the
subject, so an empty subject is not rejected — the call succeeds like any
other and exactly one completion request is issued, instead of the claimed
immediate validation error with no network call. -/
theorem empty_subject_counterexample :
    (generate_wiki_article okClient [] ("") none ("formal") ("en")).1
      = Except.ok ("")
    ∧ (generate_wiki_article okClient [] ("") none ("formal") ("en")).2.length = 1
    ∧ (generate_summary okClient [] ("") 200 ("en")).1 = Except.ok ("")
    ∧ (generate_summary okClient [] ("") 200 ("en")).2.length = 1
    ∧ (generate_infobox okClient [] ("") ("en")).1 = Except.ok ("")
    ∧ (generate_infobox okClient [] ("") ("en")).2.length = 1 :=
  ⟨rfl, rfl, rfl, rfl, rfl, rfl⟩

/-- Claim C4 amended: the single-item operations perform no emptiness check
on the subject; with a supported language an empty-subject call issues its
completion request exactly like any other subject, and no validation error
can be produced once the language check has passed. -/
theorem empty_subject_proceeds (client : Client)
    (hist : List CompletionRequest) (context : Option String)
    (style : String) (max_length : Int) (language : String)
    (h : langSupported language = true) :
    ((generate_wiki_article client hist ("") context style language).2
        = hist ++ [articleRequest ("") context style language]
      ∧ ∀ msg, (generate_wiki_article client hist ("") context style language).1
          ≠ Except.error (PyErr.valueError msg))
    ∧ ((generate_summary client hist ("") max_length language).2
        = hist ++ [summaryRequest ("") max_length language]
      ∧ ∀ msg, (generate_summary client hist ("") max_length language).1
          ≠ Except.error (PyErr.valueError msg))
    ∧ ((generate_infobox client hist ("") language).2
        = hist ++ [infoboxRequest ("") language]
      ∧ ∀ msg, (generate_infobox client hist ("") language).1
          ≠ Except.error (PyErr.valueError msg)) := by
  refine ⟨⟨?_, ?_⟩, ⟨?_, ?_⟩, ⟨?_, ?_⟩⟩ <;>
    simp only [generate_wiki_article, generate_summary, generate_infobox,
      if_pos h]
  · cases client hist (articleRequest ("") context style language) <;> simp
  · cases client hist (articleRequest ("") context style language) <;> simp
  · cases client hist (summaryRequest ("") max_length language) <;> simp
  · cases client hist (summaryRequest ("") max_length language) <;> simp
  · cases client hist (infoboxRequest ("") language) <;> simp
  · cases client hist (infoboxRequest ("") language) <;> simp

/-- Witness for the amended C4: with English and an always-succeeding
client, the empty-subject article call issues its request. -/
theorem empty_subject_proceeds_witness :
    langSupported ("en") = true
    ∧ (generate_wiki_article okClient [] ("") none ("formal") ("en")).2
        = [articleRequest ("") none ("formal") ("en")] :=
  ⟨by decide,
    ((empty_subject_proceeds okClient [] none ("formal") 200 ("en")
      (by decide)).1.1).trans (by rfl)⟩

/-- Claim C5: `extract_citations` returns the empty sequence (a normal
result, not a failure) whenever no References section is found, and on an
article whose References section holds three numbered entries it returns
exactly those three trimmed citations in their original order. -/
theorem extract_citations_spec :
    (∀ article : String, findRefsSection article.toList = none →
        extract_citations article = [])
    ∧ extract_citations sampleRefsArticle
        = [("Alpha Press, 2019. First source."),
           ("Beta Journal, 2020. Second source."),
           ("Gamma Books, 2021. Third source.")] := by
  constructor
  · intro article h
    unfold extract_citations
    rw [h]
  · decide

/-- Witness for C5: an article with no References section yields the empty
sequence. -/
theorem extract_citations_spec_witness :
    findRefsSection noRefsArticle.toList = none
    ∧ extract_citations noRefsArticle = [] :=
  ⟨by decide, extract_citations_spec.1 noRefsArticle (by decide)⟩

/-- Looking up any processed key in a dict built by folding `dictInsert`
with a value function yields that function's value. -/
lemma foldl_dictInsert_lookup {β : Type} (g : String → β) (c : String) :
    ∀ (cs : List String) (acc : List (String × β)),
      (dictLookup acc c = some (g c) ∨ c ∈ cs) →
      dictLookup (cs.foldl (fun a x => dictInsert a x (g x)) acc) c
        = some (g c) := by
  intro cs
  induction cs with
  | nil =>
    intro acc h
    rcases h with h | h
    · simpa using h
    · cases h
  | cons n rest ih =>
    intro acc h
    simp only [List.foldl_cons]
    apply ih
    by_cases hc : c ∈ rest
    · exact Or.inr hc
    · left
      rw [dictLookup_dictInsert]
      rcases h with h | h
      · by_cases hn : n = c
        · simp [hn]
        · simp [hn, h]
      · rcases List.mem_cons.mp h with h1 | h2
        · simp [h1.symm]
        · exact absurd h2 hc

/-- The validity flag equals the three-part conjunction of the claim. -/
lemma citationValid_eq (c : String) :
    citationValid c
      = (hasYear c && decide (c.length > 20) && pyEndsWith c (".")) := by
  simp [citationValid]

/-- Claim C6: `validate_citations` maps a citation to true exactly when it
contains a four-digit year token, its length exceeds 20 characters, and it
ends with a period. -/
theorem validate_citations_spec (citations : List String) (c : String)
    (h : c ∈ citations) :
    dictLookup (validate_citations citations) c
      = some (hasYear c && decide (c.length > 20) && pyEndsWith c (".")) := by
  unfold validate_citations
  rw [foldl_dictInsert_lookup citationValid c citations [] (Or.inr h),
    citationValid_eq]

/-- Witness for C6: the two spec examples — the Heritage citation is valid
and the short citation is not. -/
theorem validate_citations_spec_witness :
    dictLookup (validate_citations [("Omani Ministry of Heritage, 2019 report.")])
        ("Omani Ministry of Heritage, 2019 report.") = some true
    ∧ dictLookup (validate_citations [("too short")]) ("too short")
        = some false :=
  ⟨(validate_citations_spec [("Omani Ministry of Heritage, 2019 report.")]
      ("Omani Ministry of Heritage, 2019 report.") (by decide)).trans (by decide),
   (validate_citations_spec [("too short")] ("too short")
      (by decide)).trans (by decide)⟩

/-- Claim C7: the batch result is an insertion-ordered mapping with one
entry per distinct input subject, ordered by first occurrence; each
occurrence is processed independently (the entry value is recomputed by the
dispatched single-item operation at the call-log point reached after the
preceding subjects), and for a repeated subject the mapping holds the last
occurrence's result — last write wins. -/
theorem batch_generate_result_shape (client : Client)
    (output_type language : String) (pre suf : List String) (s : String)
    (h : s ∉ suf) :
    keyList (batch_generate client [] (pre ++ s :: suf) output_type language).1
      = firstOccurrences (pre ++ s :: suf)
    ∧ dictLookup
        (batch_generate client [] (pre ++ s :: suf) output_type language).1 s
      = some (mkEntry (runOne client
          (batch_generate client [] pre output_type language).2
          output_type language s).1) := by
  constructor
  · unfold batch_generate firstOccurrences
    rw [batch_go_keys]
    rfl
  · unfold batch_generate
    rw [batch_go_append]
    simp only [batch_go]
    rw [batch_go_lookup_of_not_mem client output_type language s suf _ _ h,
      dictLookup_dictInsert]
    simp

/-- Witness for C7: a repeated subject under a history-sensitive client —
the mapping has a single entry for the subject, holding the second
occurrence's result. -/
theorem batch_generate_result_shape_witness :
    keyList (batch_generate countingClient [] [("A"), ("A")]
        ("article") ("en")).1 = [("A")]
    ∧ dictLookup (batch_generate countingClient [] [("A"), ("A")]
        ("article") ("en")).1 ("A") = some ("second") := by
  have h := batch_generate_result_shape countingClient ("article") ("en")
    [("A")] [] ("A") (by decide)
  exact ⟨h.1.trans (by decide), h.2.trans (by decide)⟩

/-- Claim C8 as stated is false: the cli.py derivation also strips trailing
whitespace (`rstrip`) before replacing spaces, so a subject with a trailing
space is mapped to a different filename than the claimed derivation
produces. -/
theorem safe_name_counterexample :
    safe_name ("Muscat Festival ") = ("Muscat_Festival")
    ∧ claimedSafeName ("Muscat Festival ") = ("Muscat_Festival_")
    ∧ safe_name ("Muscat Festival ") ≠ claimedSafeName ("Muscat Festival ") :=
  ⟨by decide, by decide, by decide⟩

/-- Presence of a file is preserved by later writes. -/
lemma dictLookup_isSome_dictInsert {β : Type} (d : List (String × β))
    (k' k : String) (v : β) (h : (dictLookup d k).isSome = true) :
    (dictLookup (dictInsert d k' v) k).isSome = true := by
  rw [dictLookup_dictInsert]
  by_cases hk : k' = k <;> simp [hk, h]

/-- After the export fold, a file exists at the realized path of every
entry (and previously existing files persist). -/
lemma export_fold_isSome (output_dir : String) :
    ∀ (entries : List (String × String)) (fs : List (String × String))
      (p : String),
      ((∃ e ∈ entries, mkPath output_dir e.1 = p)
        ∨ (dictLookup fs p).isSome = true) →
      (dictLookup (entries.foldl
          (fun acc e => dictInsert acc (mkPath output_dir e.1) e.2) fs)
        p).isSome = true := by
  intro entries
  induction entries with
  | nil =>
    intro fs p h
    rcases h with ⟨e, he, _⟩ | h
    · cases he
    · simpa using h
  | cons q rest ih =>
    intro fs p h
    simp only [List.foldl_cons]
    apply ih
    rcases h with ⟨e, he, hp⟩ | h
    · rcases List.mem_cons.mp he with h1 | h2
      · right
        subst h1
        rw [dictLookup_dictInsert]
        simp [hp]
      · exact Or.inl ⟨e, h2, hp⟩
    · exact Or.inr (dictLookup_isSome_dictInsert fs _ p q.2 h)

/-- Claim C8 amended: the realized path of each entry derives from the
corrected sanitisation (`safe_name`: keep alphanumerics, space, hyphen,
underscore, strip trailing whitespace, replace each space by an
underscore); the returned mapping carries one (subject, path) pair per
entry, and after the export a file exists at each realized path. -/
theorem batch_export_amended (results : List (String × String))
    (output_dir : String) (fs : List (String × String)) (s c : String)
    (h : (s, c) ∈ results) :
    ((s, mkPath output_dir s) ∈ (batch_export results output_dir fs).1)
    ∧ (dictLookup (batch_export results output_dir fs).2
        (mkPath output_dir s)).isSome = true := by
  constructor
  · unfold batch_export
    exact List.mem_map_of_mem (fun e => (e.1, mkPath output_dir e.1)) h
  · unfold batch_export
    exact export_fold_isSome output_dir results fs (mkPath output_dir s)
      (Or.inl ⟨(s, c), h, rfl⟩)

/-- Witness for the amended C8: one entry, realized path with the sanitized
name, file present after export. -/
theorem batch_export_amended_witness :
    ((("Muscat Festival"), ("out/Muscat_Festival.txt"))
        ∈ (batch_export [(("Muscat Festival"), ("content"))] ("out") []).1)
    ∧ (dictLookup (batch_export [(("Muscat Festival"), ("content"))]
        ("out") []).2 (("out/Muscat_Festival.txt"))).isSome = true := by
  have h := batch_export_amended [(("Muscat Festival"), ("content"))]
    ("out") [] ("Muscat Festival") ("content") (by decide)
  have e1 : mkPath ("out") ("Muscat Festival") = ("out/Muscat_Festival.txt") := by
    decide
  exact ⟨e1 ▸ h.1, e1 ▸ h.2⟩

/-- Claim C9: the sampling parameters sent to the completion service are
fixed per content type and not caller-tunable: whatever the arguments, each
operation either makes no call or appends exactly its fixed request, with
temperature and max output tokens 0.7/2000 for articles, 0.5/300 for
summaries, 0.6/500 for infoboxes and 0.7/200 for image prompts. -/
theorem sampling_parameters_fixed (client : Client)
    (hist : List CompletionRequest) (event_name : String)
    (context : Option String) (style : String) (max_length : Int)
    (language : String) :
    ((generate_wiki_article client hist event_name context style language).2
        = hist
      ∨ (generate_wiki_article client hist event_name context style language).2
          = hist ++ [articleRequest event_name context style language])
    ∧ (articleRequest event_name context style language).temperature = 0.7
    ∧ (articleRequest event_name context style language).max_tokens = 2000
    ∧ ((generate_summary client hist event_name max_length language).2 = hist
      ∨ (generate_summary client hist event_name max_length language).2
          = hist ++ [summaryRequest event_name max_length language])
    ∧ (summaryRequest event_name max_length language).temperature = 0.5
    ∧ (summaryRequest event_name max_length language).max_tokens = 300
    ∧ ((generate_infobox client hist event_name language).2 = hist
      ∨ (generate_infobox client hist event_name language).2
          = hist ++ [infoboxRequest event_name language])
    ∧ (infoboxRequest event_name language).temperature = 0.6
    ∧ (infoboxRequest event_name language).max_tokens = 500
    ∧ ((generate_with_image client hist event_name context language).2 = hist
      ∨ (generate_with_image client hist event_name context language).2
          = hist ++ [articleRequest event_name context ("formal") language]
      ∨ (generate_with_image client hist event_name context language).2
          = hist ++ [articleRequest event_name context ("formal") language,
              imageRequest language event_name])
    ∧ (imageRequest language event_name).temperature = 0.7
    ∧ (imageRequest language event_name).max_tokens = 200 := by
  refine ⟨?_, rfl, rfl, ?_, rfl, rfl, ?_, rfl, rfl, ?_, rfl, rfl⟩
  · by_cases h : langSupported language = true
    · right
      simp only [generate_wiki_article, if_pos h]
      cases client hist (articleRequest event_name context style language) <;>
        rfl
    · left
      simp only [generate_wiki_article, if_neg h]
  · by_cases h : langSupported language = true
    · right
      simp only [generate_summary, if_pos h]
      cases client hist (summaryRequest event_name max_length language) <;> rfl
    · left
      simp only [generate_summary, if_neg h]
  · by_cases h : langSupported language = true
    · right
      simp only [generate_infobox, if_pos h]
      cases client hist (infoboxRequest event_name language) <;> rfl
    · left
      simp only [generate_infobox, if_neg h]
  · by_cases h : langSupported language = true
    · cases ha : client hist (articleRequest event_name context ("formal") language) with
      | error e =>
        right; left
        simp [generate_with_image, generate_wiki_article, if_pos h, ha]
      | ok a =>
        right; right
        simp only [generate_with_image, generate_wiki_article, if_pos h, ha]
        cases client
            (hist ++ [articleRequest event_name context ("formal") language])
            (imageRequest language event_name) <;>
          simp
    · left
      simp [generate_with_image, generate_wiki_article, if_neg h]

/-- With an unknown output type every iteration raises and catches the same
ValueError without calling the client. -/
lemma runOne_unknown (client : Client) (hist : List CompletionRequest)
    (ot lang n : String) (h1 : ot ≠ "article") (h2 : ot ≠ "summary")
    (h3 : ot ≠ "infobox") :
    runOne client hist ot lang n
      = (Except.error (PyErr.valueError (("Unknown output type: ") ++ ot)),
        hist) := by
  simp [runOne, h1, h2, h3]

/-- With an unknown output type the loop never extends the call log. -/
lemma batch_go_unknown_hist (client : Client) (ot lang : String)
    (h1 : ot ≠ "article") (h2 : ot ≠ "summary") (h3 : ot ≠ "infobox") :
    ∀ (names : List String) results hist,
      (batch_go client ot lang names results hist).2 = hist := by
  intro names
  induction names with
  | nil => intro results hist; rfl
  | cons n rest ih =>
    intro results hist
    simp only [batch_go, runOne_unknown client hist ot lang n h1 h2 h3]
    exact ih _ _

/-- With an unknown output type every input subject ends up mapped to the
synthesized unknown-type error string. -/
lemma batch_go_unknown_lookup (client : Client) (ot lang : String)
    (h1 : ot ≠ "article") (h2 : ot ≠ "summary") (h3 : ot ≠ "infobox") :
    ∀ (names : List String) results hist (s : String), s ∈ names →
      dictLookup (batch_go client ot lang names results hist).1 s
        = some (("Error: Unknown output type: ") ++ ot) := by
  intro names
  induction names with
  | nil => intro results hist s hs; cases hs
  | cons n rest ih =>
    intro results hist s hs
    simp only [batch_go, runOne_unknown client hist ot lang n h1 h2 h3]
    by_cases hsr : s ∈ rest
    · exact ih _ _ _ hsr
    · have hsn : s = n := by
        rcases List.mem_cons.mp hs with hx | hx
        · exact hx
        · exact absurd hx hsr
      subst hsn
      rw [batch_go_lookup_of_not_mem client ot lang s rest _ _ hsr,
        dictLookup_dictInsert]
      have hstr : (("Error: ") ++ (("Unknown output type: ") ++ ot))
          = ("Error: Unknown output type: ") ++ ot := by
        rw [← String.append_assoc]
        congr 1
      simp [mkEntry, PyErr.str, hstr]

/-- Claim C10: for an output type outside article/summary/infobox the batch
does not raise: the unknown-type error is caught per item, every input
subject maps to the synthesized `Error: Unknown output type: ...` string,
the batch completes with one entry per distinct subject in input order, and
no completion call is made. -/
theorem batch_generate_unknown_output_type (client : Client)
    (hist : List CompletionRequest) (names : List String)
    (output_type language s : String)
    (h1 : output_type ∉ (["article", "summary", "infobox"] : List String))
    (h2 : s ∈ names) :
    dictLookup (batch_generate client hist names output_type language).1 s
      = some (("Error: Unknown output type: ") ++ output_type)
    ∧ keyList (batch_generate client hist names output_type language).1
      = firstOccurrences names
    ∧ (batch_generate client hist names output_type language).2 = hist := by
  have ha : output_type ≠ "article" := fun hq => h1 (by simp [hq])
  have hb : output_type ≠ "summary" := fun hq => h1 (by simp [hq])
  have hc : output_type ≠ "infobox" := fun hq => h1 (by simp [hq])
  refine ⟨?_, ?_, ?_⟩
  · exact batch_go_unknown_lookup client output_type language ha hb hc
      names [] hist s h2
  · unfold batch_generate firstOccurrences
    rw [batch_go_keys]
    rfl
  · exact batch_go_unknown_hist client output_type language ha hb hc
      names [] hist

/-- Witness for C10: output type wiki over two subjects — both map to the
error string, the keys keep input order, no call is recorded. -/
theorem batch_generate_unknown_output_type_witness :
    dictLookup (batch_generate okClient [] [("A"), ("B")]
        ("wiki") ("en")).1 ("A") = some ("Error: Unknown output type: wiki")
    ∧ keyList (batch_generate okClient [] [("A"), ("B")]
        ("wiki") ("en")).1 = [("A"), ("B")]
    ∧ (batch_generate okClient [] [("A"), ("B")] ("wiki") ("en")).2 = [] := by
  have h := batch_generate_unknown_output_type okClient [] [("A"), ("B")]
    ("wiki") ("en") ("A") (by decide) (by decide)
  exact ⟨h.1.trans (by decide), h.2.1.trans (by decide), h.2.2⟩

end WikiGen
